import Mathlib

/-!
Shallow embedding of the Norte API lifecycle core (routes/reservations.py,
routes/transactions.py, routes/events.py, schemas, models) and proofs about
its reservation/transaction state machine.

Identifiers are natural numbers, timestamps are integers (seconds).
Each HTTP handler becomes a function `DB → request → Except ApiError (DB × result)`;
raising an HTTPException before commit corresponds to returning an error,
which leaves the stored state unchanged (the session is rolled back).
Database CHECK constraints declared on the SQLAlchemy models
(end_date >= start_date on events and reservations) fire at commit time and
are modelled as a final check before the new state is returned.
-/

/-- Status of an equipment item (enums.EquipmentStatus). -/
inductive EquipmentStatus
  | available
  | reserved
  | inUse
  | maintenance
  | excluded
deriving DecidableEq, Repr

/-- Status of a bag (enums.BagStatus). -/
inductive BagStatus
  | available
  | reserved
  | inUse
  | excluded
deriving DecidableEq, Repr

/-- Status of an event (enums.EventStatus). -/
inductive EventStatus
  | planned
  | confirmed
  | inProgress
  | completed
  | cancelled
deriving DecidableEq, Repr

/-- Type of a transaction (enums.TransactionType): withdrawal or return. -/
inductive TransactionType
  | withdrawal
  | ret
deriving DecidableEq, Repr

/-- Status of a transaction (enums.TransactionStatus). -/
inductive TransactionStatus
  | pending
  | confirmed
  | completed
  | cancelled
deriving DecidableEq, Repr

/-- Status of a reservation (enums.ReservationStatus). -/
inductive ReservationStatus
  | active
  | completed
  | cancelled
deriving DecidableEq, Repr

/-- Equipment row (models/equipment.py), restricted to the lifecycle fields. -/
structure Equipment where
  id : Nat
  status : EquipmentStatus
  bag_id : Option Nat
deriving DecidableEq, Repr

/-- Bag row (models/bag.py), restricted to the lifecycle fields. -/
structure Bag where
  id : Nat
  status : BagStatus
  is_active : Bool
deriving DecidableEq, Repr

/-- Event row (models/event.py), restricted to the lifecycle fields. -/
structure Event where
  id : Nat
  code : Nat
  status : EventStatus
  start_date : Int
  end_date : Int
deriving DecidableEq, Repr

/-- Reservation row (models/reservation.py). -/
structure Reservation where
  id : Nat
  equipment_id : Option Nat
  bag_id : Option Nat
  event_id : Nat
  start_date : Int
  end_date : Int
  status : ReservationStatus
deriving DecidableEq, Repr

/-- Transaction row (models/transaction.py), restricted to the lifecycle fields. -/
structure Transaction where
  id : Nat
  equipment_id : Option Nat
  bag_id : Option Nat
  event_id : Nat
  transaction_type : TransactionType
  status : TransactionStatus
  scheduled_date : Int
  actual_date : Option Int
deriving DecidableEq, Repr

/-- The entity store: the five lifecycle tables. -/
structure DB where
  equipments : List Equipment
  bags : List Bag
  events : List Event
  reservations : List Reservation
  transactions : List Transaction
deriving DecidableEq, Repr

/-- Lookup of an equipment row by primary key (query ... filter(id == ...).first()). -/
def DB.findEquipment (db : DB) (i : Nat) : Option Equipment :=
  db.equipments.find? (fun e => e.id == i)

/-- Lookup of a bag row by primary key. -/
def DB.findBag (db : DB) (i : Nat) : Option Bag :=
  db.bags.find? (fun b => b.id == i)

/-- Lookup of an event row by primary key. -/
def DB.findEvent (db : DB) (i : Nat) : Option Event :=
  db.events.find? (fun e => e.id == i)

/-- Lookup of a reservation row by primary key. -/
def DB.findReservation (db : DB) (i : Nat) : Option Reservation :=
  db.reservations.find? (fun r => r.id == i)

/-- Lookup of a transaction row by primary key. -/
def DB.findTransaction (db : DB) (i : Nat) : Option Transaction :=
  db.transactions.find? (fun t => t.id == i)

/-- Status of the equipment row with the given id, when present. -/
def getEquipmentStatus (db : DB) (i : Nat) : Option EquipmentStatus :=
  (db.findEquipment i).map Equipment.status

/-- Status of the bag row with the given id, when present. -/
def getBagStatus (db : DB) (i : Nat) : Option BagStatus :=
  (db.findBag i).map Bag.status

/-- Status of the event row with the given id, when present. -/
def getEventStatus (db : DB) (i : Nat) : Option EventStatus :=
  (db.findEvent i).map Event.status

/-- Status of the transaction row with the given id, when present. -/
def getTransactionStatus (db : DB) (i : Nat) : Option TransactionStatus :=
  (db.findTransaction i).map Transaction.status

/-- Set the status of the equipment row with the given id. -/
def setEquipmentStatus (db : DB) (i : Nat) (s : EquipmentStatus) : DB :=
  { db with equipments :=
      db.equipments.map (fun e => if e.id == i then { e with status := s } else e) }

/-- Set the status of the bag row with the given id. -/
def setBagStatus (db : DB) (i : Nat) (s : BagStatus) : DB :=
  { db with bags :=
      db.bags.map (fun b => if b.id == i then { b with status := s } else b) }

/-- Set the status of the event row with the given id. -/
def setEventStatus (db : DB) (i : Nat) (s : EventStatus) : DB :=
  { db with events :=
      db.events.map (fun e => if e.id == i then { e with status := s } else e) }

/-- Replace every reservation row carrying the given id (the setattr patch on
a fetched reservation, seen at commit). -/
def replaceReservation (db : DB) (i : Nat) (r2 : Reservation) : DB :=
  { db with reservations :=
      db.reservations.map (fun x => if x.id == i then r2 else x) }

/-- Replace every transaction row carrying the given id. -/
def replaceTransaction (db : DB) (i : Nat) (t2 : Transaction) : DB :=
  { db with transactions :=
      db.transactions.map (fun x => if x.id == i then t2 else x) }

/-- Replace every event row carrying the given id. -/
def replaceEvent (db : DB) (i : Nat) (e2 : Event) : DB :=
  { db with events :=
      db.events.map (fun x => if x.id == i then e2 else x) }

/-- Set the status of every equipment row owned by the given bag whose current
status satisfies `cond` (the loop over bag members in the routes). -/
def cascadeBag (db : DB) (bid : Nat) (cond : EquipmentStatus → Bool)
    (s : EquipmentStatus) : DB :=
  { db with equipments :=
      db.equipments.map (fun e =>
        if e.bag_id == some bid && cond e.status then { e with status := s } else e) }

/-- Error kinds raised by the handlers. One constructor per distinct
HTTPException site relevant to the lifecycle core; `dbCheckViolation` stands
for an IntegrityError raised at commit by a model-level CHECK constraint and
`dbFkViolation` for an IntegrityError raised at flush by a foreign-key
constraint (core/database.py enables PRAGMA foreign_keys=ON for SQLite). -/
inductive ApiError
  | eventNotFound
  | eventStatusInvalid
  | equipmentNotFound
  | equipmentBelongsToBag
  | equipmentNotAvailable
  | bagNotFound
  | bagInactive
  | bagNotAvailable
  | conflict
  | reservationNotFound
  | reservationNotActive
  | transactionNotFound
  | transactionCompleted
  | equipmentInUseElsewhere
  | equipmentNotInUse
  | bagInUseElsewhere
  | duplicateCode
  | dbCheckViolation
  | dbFkViolation
deriving DecidableEq, Repr

/-- Whether a handler call succeeded. -/
def exceptOk {α : Type} (r : Except ApiError (DB × α)) : Bool :=
  match r with
  | .ok _ => true
  | .error _ => false

/-- Final state of a handler call: on error the session is rolled back and the
store is unchanged; on success the new state is committed. -/
def runOp {α : Type} (db : DB) (r : Except ApiError (DB × α)) : DB :=
  match r with
  | .ok (db2, _) => db2
  | .error _ => db

/-- Per-row predicate of check_reservation_conflict (routes/reservations.py,
lines 36 to 48): active status, resource-id match (each or-branch is guarded
by the Python-level `is not None` literal), strict window overlap, and the
optional exclusion filter. -/
def conflictPred (equipment_id bag_id : Option Nat) (start_date end_date : Int)
    (excl : Option Nat) (r : Reservation) : Bool :=
  (r.status == .active)
  && ((equipment_id.isSome && r.equipment_id == equipment_id)
      || (bag_id.isSome && r.bag_id == bag_id))
  && decide (r.start_date < end_date)
  && decide (r.end_date > start_date)
  && (match excl with
      | none => true
      | some x => r.id != x)

/-- check_reservation_conflict (routes/reservations.py): true iff some stored
reservation satisfies the filter (first() is not None). -/
def check_reservation_conflict (db : DB) (equipment_id bag_id : Option Nat)
    (start_date end_date : Int) (excl : Option Nat) : Bool :=
  db.reservations.any (conflictPred equipment_id bag_id start_date end_date excl)

/-- Request body of POST /reservations (schemas/reservation.py, ReservationCreate).
The status field is part of the payload and defaults to active. -/
structure ReservationCreate where
  equipment_id : Option Nat
  bag_id : Option Nat
  event_id : Nat
  start_date : Int
  end_date : Int
  reserved_by : Nat
  status : ReservationStatus
deriving DecidableEq, Repr

/-- Pydantic validators of ReservationBase: exactly one of equipment_id and
bag_id, and end_date greater or equal start_date. -/
def ReservationCreate.pydanticOk (rq : ReservationCreate) : Bool :=
  (rq.equipment_id.isSome != rq.bag_id.isSome)
  && decide (rq.start_date <= rq.end_date)

/-- Equipment validation block of create_reservation (routes/reservations.py,
lines 121 to 143): existence, bag membership, availability. -/
def reservationEquipmentCheck (db : DB) (rq : ReservationCreate) :
    Except ApiError Unit :=
  match rq.equipment_id with
  | none => .ok ()
  | some eid =>
    match db.findEquipment eid with
    | none => .error .equipmentNotFound
    | some e =>
      if e.bag_id.isSome then .error .equipmentBelongsToBag
      else if e.status != .available then .error .equipmentNotAvailable
      else .ok ()

/-- Bag validation block of create_reservation (routes/reservations.py,
lines 145 to 164): existence, is_active, availability. -/
def reservationBagCheck (db : DB) (rq : ReservationCreate) :
    Except ApiError Unit :=
  match rq.bag_id with
  | none => .ok ()
  | some bid =>
    match db.findBag bid with
    | none => .error .bagNotFound
    | some b =>
      if !b.is_active then .error .bagInactive
      else if b.status != .available then .error .bagNotAvailable
      else .ok ()

/-- Status writes of create_reservation after the insert (routes/reservations.py,
lines 186 to 194): equipment to reserved, and for a bag resource the bag plus
an unconditional cascade over its members to reserved. -/
def applyResourceReserve (db : DB) (rq : ReservationCreate) : DB :=
  let db1 :=
    match rq.equipment_id with
    | some eid => setEquipmentStatus db eid .reserved
    | none => db
  match rq.bag_id with
  | some bid =>
    if (db1.findBag bid).isSome then
      cascadeBag (setBagStatus db1 bid .reserved) bid (fun _ => true) .reserved
    else db1
  | none => db1

/-- create_reservation (routes/reservations.py, lines 96 to 200): validates the
event, the resource and the absence of conflicts, inserts the reservation with
the payload fields, and marks the resource reserved. -/
def create_reservation (db : DB) (rq : ReservationCreate) (newId : Nat) :
    Except ApiError (DB × Reservation) :=
  match db.findEvent rq.event_id with
  | none => .error .eventNotFound
  | some event =>
    if event.status == .confirmed || event.status == .inProgress then
      match reservationEquipmentCheck db rq with
      | .error e => .error e
      | .ok _ =>
        match reservationBagCheck db rq with
        | .error e => .error e
        | .ok _ =>
          if check_reservation_conflict db rq.equipment_id rq.bag_id
              rq.start_date rq.end_date none then
            .error .conflict
          else
            let newR : Reservation :=
              { id := newId, equipment_id := rq.equipment_id,
                bag_id := rq.bag_id, event_id := rq.event_id,
                start_date := rq.start_date, end_date := rq.end_date,
                status := rq.status }
            let db1 := { db with reservations := db.reservations ++ [newR] }
            .ok (applyResourceReserve db1 rq, newR)
    else .error .eventStatusInvalid

/-- Request body of PUT /reservations (schemas/reservation.py,
ReservationUpdate); a none field was not sent. -/
structure ReservationUpdate where
  start_date : Option Int
  end_date : Option Int
  status : Option ReservationStatus
deriving DecidableEq, Repr

/-- Pydantic validator of ReservationUpdate: the dates are compared only when
both are present in the patch. -/
def ReservationUpdate.pydanticOk (rq : ReservationUpdate) : Bool :=
  match rq.start_date, rq.end_date with
  | some s, some e => decide (s <= e)
  | _, _ => true

/-- Release block shared by update_reservation (lines 244 to 256) and
cancel_reservation (lines 291 to 303): equipment to available, bag to
available with an unconditional cascade of its members to available. -/
def releaseResources (db : DB) (r : Reservation) : DB :=
  let db1 :=
    match r.equipment_id with
    | some eid => setEquipmentStatus db eid .available
    | none => db
  match r.bag_id with
  | some bid =>
    if (db1.findBag bid).isSome then
      cascadeBag (setBagStatus db1 bid .available) bid (fun _ => true) .available
    else db1
  | none => db1

/-- update_reservation (routes/reservations.py, lines 203 to 262): conflict
check when a date is patched, field patch, release on a patch status of
cancelled or completed, and the commit-time CHECK constraint on the dates. -/
def update_reservation (db : DB) (rid : Nat) (rq : ReservationUpdate) :
    Except ApiError (DB × Reservation) :=
  match db.findReservation rid with
  | none => .error .reservationNotFound
  | some r =>
    let newStart := rq.start_date.getD r.start_date
    let newEnd := rq.end_date.getD r.end_date
    if (rq.start_date.isSome || rq.end_date.isSome)
        && check_reservation_conflict db r.equipment_id r.bag_id
            newStart newEnd (some rid) then
      .error .conflict
    else
      let r2 : Reservation :=
        { r with start_date := newStart, end_date := newEnd,
                 status := rq.status.getD r.status }
      let db1 := replaceReservation db rid r2
      let db2 :=
        if rq.status == some .cancelled || rq.status == some .completed then
          releaseResources db1 r2
        else db1
      if r2.end_date < r2.start_date then .error .dbCheckViolation
      else .ok (db2, r2)

/-- cancel_reservation (routes/reservations.py, lines 265 to 307): only active
reservations can be cancelled; sets status cancelled and releases the
resource with the unconditional member cascade. -/
def cancel_reservation (db : DB) (rid : Nat) :
    Except ApiError (DB × Reservation) :=
  match db.findReservation rid with
  | none => .error .reservationNotFound
  | some r =>
    if r.status != .active then .error .reservationNotActive
    else
      let r2 : Reservation := { r with status := .cancelled }
      .ok (releaseResources (replaceReservation db rid r2) r2, r2)

/-- Request body of POST /transactions (schemas/transaction.py,
TransactionCreate); the user_id is overridden by the route and omitted. -/
structure TransactionCreate where
  equipment_id : Option Nat
  bag_id : Option Nat
  event_id : Nat
  transaction_type : TransactionType
  scheduled_date : Int
  status : TransactionStatus
deriving DecidableEq, Repr

/-- Pydantic validator of TransactionBase: exactly one of equipment_id and
bag_id. -/
def TransactionCreate.pydanticOk (rq : TransactionCreate) : Bool :=
  rq.equipment_id.isSome != rq.bag_id.isSome

/-- Equipment validation block of create_transaction (routes/transactions.py,
lines 105 to 147): existence, then the per-type status precondition. -/
def transactionEquipmentCheck (db : DB) (rq : TransactionCreate) :
    Except ApiError Unit :=
  match rq.equipment_id with
  | none => .ok ()
  | some eid =>
    match db.findEquipment eid with
    | none => .error .equipmentNotFound
    | some e =>
      if rq.transaction_type == .withdrawal
          && !(e.status == .available || e.status == .reserved) then
        .error .equipmentInUseElsewhere
      else if rq.transaction_type == .ret && e.status != .inUse then
        .error .equipmentNotInUse
      else .ok ()

/-- Bag validation block of create_transaction (routes/transactions.py,
lines 149 to 174): only for withdrawals, and only when the bag exists and is
in use; a missing bag is not an error. -/
def transactionBagCheck (db : DB) (rq : TransactionCreate) :
    Except ApiError Unit :=
  match rq.bag_id with
  | none => .ok ()
  | some bid =>
    if rq.transaction_type == .withdrawal then
      match db.findBag bid with
      | some b => if b.status == .inUse then .error .bagInUseElsewhere else .ok ()
      | none => .ok ()
    else .ok ()

/-- Equipment status write of create_transaction (routes/transactions.py,
lines 208 to 213): withdrawal to in_use, return to available. -/
def applyEquipmentTransition (db : DB) (rq : TransactionCreate) : DB :=
  match rq.equipment_id with
  | none => db
  | some eid =>
    if (db.findEquipment eid).isSome then
      match rq.transaction_type with
      | .withdrawal => setEquipmentStatus db eid .inUse
      | .ret => setEquipmentStatus db eid .available
    else db

/-- Bag status write of create_transaction (routes/transactions.py, lines 226
to 260): bag to in_use with a cascade over members in available or reserved,
or bag to available with a cascade over members in in_use. -/
def applyBagTransition (db : DB) (rq : TransactionCreate) : DB :=
  match rq.bag_id with
  | none => db
  | some bid =>
    if (db.findBag bid).isSome then
      match rq.transaction_type with
      | .withdrawal =>
        cascadeBag (setBagStatus db bid .inUse) bid
          (fun s => s == .available || s == .reserved) .inUse
      | .ret =>
        cascadeBag (setBagStatus db bid .available) bid
          (fun s => s == .inUse) .available
    else db

/-- Count of transactions of one type for one event (the two count queries of
routes/transactions.py, lines 274 to 292); no status filter. -/
def countEventTransactions (db : DB) (eid : Nat) (ty : TransactionType) : Nat :=
  (db.transactions.filter
    (fun t => t.event_id == eid && t.transaction_type == ty)).length

/-- Event status write of create_transaction (routes/transactions.py, lines
262 to 314), evaluated after the new transaction row was flushed: a
withdrawal advances a planned or confirmed event to in_progress; a return
counts the withdrawals and the returns already flushed for the event, adds
one for the transaction being created, and completes an in_progress event
when withdrawals are positive, the adjusted return count reaches the
withdrawal count and now is at least end_date plus 24 hours. -/
def applyEventTransition (db : DB) (rq : TransactionCreate) (now : Int) : DB :=
  match db.findEvent rq.event_id with
  | none => db
  | some event =>
    match rq.transaction_type with
    | .withdrawal =>
      if event.status == .planned || event.status == .confirmed then
        setEventStatus db rq.event_id .inProgress
      else db
    | .ret =>
      let event_withdrawals := countEventTransactions db rq.event_id .withdrawal
      let event_returns := countEventTransactions db rq.event_id .ret + 1
      if event_withdrawals > 0 && event_returns >= event_withdrawals then
        if event.status == .inProgress then
          if decide (event.end_date + 86400 <= now) then
            setEventStatus db rq.event_id .completed
          else db
        else db
      else db

/-- Foreign-key constraints of the transactions table checked at flush
(models/transaction.py lines 21 to 29, enforced because core/database.py
runs PRAGMA foreign_keys=ON): equipment_id, bag_id and event_id must each
reference an existing row when set. -/
def transactionFkOk (db : DB) (t : Transaction) : Bool :=
  (match t.equipment_id with
   | none => true
   | some eid => (db.findEquipment eid).isSome)
  && (match t.bag_id with
      | none => true
      | some bid => (db.findBag bid).isSome)
  && (db.findEvent t.event_id).isSome

/-- create_transaction (routes/transactions.py, lines 77 to 320): event and
resource validation, insert with status forced to completed for withdrawal
and return types, flushed before the event recount — the flush raises an
IntegrityError when the inserted row violates a foreign key, aborting the
request with nothing persisted — then the equipment, bag and event status
writes. -/
def create_transaction (db : DB) (rq : TransactionCreate) (now : Int)
    (newId : Nat) : Except ApiError (DB × Transaction) :=
  match db.findEvent rq.event_id with
  | none => .error .eventNotFound
  | some event =>
    if event.status == .planned || event.status == .confirmed
        || event.status == .inProgress then
      match transactionEquipmentCheck db rq with
      | .error e => .error e
      | .ok _ =>
        match transactionBagCheck db rq with
        | .error e => .error e
        | .ok _ =>
          let newT : Transaction :=
            { id := newId, equipment_id := rq.equipment_id,
              bag_id := rq.bag_id, event_id := rq.event_id,
              transaction_type := rq.transaction_type,
              status :=
                if rq.transaction_type == .withdrawal
                    || rq.transaction_type == .ret then .completed
                else rq.status,
              scheduled_date := rq.scheduled_date, actual_date := none }
          if transactionFkOk db newT then
            let db1 := { db with transactions := db.transactions ++ [newT] }
            let db2 := applyEquipmentTransition db1 rq
            let db3 := applyBagTransition db2 rq
            .ok (applyEventTransition db3 rq now, newT)
          else .error .dbFkViolation
    else .error .eventStatusInvalid

/-- Request body of PUT /transactions (schemas/transaction.py,
TransactionUpdate); notes are outside the lifecycle model. -/
structure TransactionUpdate where
  status : Option TransactionStatus
  scheduled_date : Option Int
  actual_date : Option Int
deriving DecidableEq, Repr

/-- update_transaction (routes/transactions.py, lines 323 to 367): applies the
patch to the found transaction with no status precondition, stamps
actual_date with now when the patch sets status completed and the patched row
has no actual_date; touches no other table. -/
def update_transaction (db : DB) (tid : Nat) (rq : TransactionUpdate)
    (now : Int) : Except ApiError (DB × Transaction) :=
  match db.findTransaction tid with
  | none => .error .transactionNotFound
  | some t =>
    let t1 : Transaction :=
      { t with status := rq.status.getD t.status,
               scheduled_date := rq.scheduled_date.getD t.scheduled_date,
               actual_date :=
                 match rq.actual_date with
                 | some d => some d
                 | none => t.actual_date }
    let t2 : Transaction :=
      if rq.status == some .completed && t1.actual_date == none then
        { t1 with actual_date := some now }
      else t1
    .ok (replaceTransaction db tid t2, t2)

/-- cancel_transaction (routes/transactions.py, lines 370 to 411): rejected
only when the current status is completed; otherwise sets status cancelled. -/
def cancel_transaction (db : DB) (tid : Nat) :
    Except ApiError (DB × Transaction) :=
  match db.findTransaction tid with
  | none => .error .transactionNotFound
  | some t =>
    if t.status == .completed then .error .transactionCompleted
    else
      let t2 : Transaction := { t with status := .cancelled }
      .ok (replaceTransaction db tid t2, t2)

/-- Request body of POST /events (schemas/event.py, EventCreate), restricted
to the lifecycle fields. -/
structure EventCreate where
  code : Nat
  status : EventStatus
  start_date : Int
  end_date : Int
deriving DecidableEq, Repr

/-- Pydantic validator of EventBase: end_date greater or equal start_date
(both dates are required on creation). -/
def EventCreate.pydanticOk (rq : EventCreate) : Bool :=
  decide (rq.start_date <= rq.end_date)

/-- create_event (routes/events.py, lines 78 to 108): duplicate code check,
insert, and the commit-time CHECK constraint on the dates. -/
def create_event (db : DB) (rq : EventCreate) (newId : Nat) :
    Except ApiError (DB × Event) :=
  if db.events.any (fun e => e.code == rq.code) then .error .duplicateCode
  else
    let e : Event :=
      { id := newId, code := rq.code, status := rq.status,
        start_date := rq.start_date, end_date := rq.end_date }
    if e.end_date < e.start_date then .error .dbCheckViolation
    else .ok ({ db with events := db.events ++ [e] }, e)

/-- Request body of PUT /events (schemas/event.py, EventUpdate), restricted to
the lifecycle fields; a none field was not sent. -/
structure EventUpdate where
  code : Option Nat
  status : Option EventStatus
  start_date : Option Int
  end_date : Option Int
deriving DecidableEq, Repr

/-- Pydantic validator of EventUpdate: the dates are compared only when both
are present in the patch. -/
def EventUpdate.pydanticOk (rq : EventUpdate) : Bool :=
  match rq.start_date, rq.end_date with
  | some s, some e => decide (s <= e)
  | _, _ => true

/-- update_event (routes/events.py, lines 111 to 136): plain field patch with
no cross-field check in the route, then the commit-time CHECK constraint on
the dates. -/
def update_event (db : DB) (eid : Nat) (rq : EventUpdate) :
    Except ApiError (DB × Event) :=
  match db.findEvent eid with
  | none => .error .eventNotFound
  | some e =>
    let e2 : Event :=
      { e with code := rq.code.getD e.code, status := rq.status.getD e.status,
               start_date := rq.start_date.getD e.start_date,
               end_date := rq.end_date.getD e.end_date }
    if e2.end_date < e2.start_date then .error .dbCheckViolation
    else .ok (replaceEvent db eid e2, e2)

/-- Stored-state date invariant of section 8 of the design: every event and
every reservation has end_date greater or equal start_date. -/
def datesOk (db : DB) : Bool :=
  db.events.all (fun e => decide (e.start_date <= e.end_date))
  && db.reservations.all (fun r => decide (r.start_date <= r.end_date))

/-- Fixture: a reserved bag 10 with two members, one under maintenance and one
reserved, held by active reservation 50 for confirmed event 100. -/
def dbBagRes : DB :=
  { equipments := [{ id := 1, status := .maintenance, bag_id := some 10 },
                   { id := 2, status := .reserved, bag_id := some 10 }],
    bags := [{ id := 10, status := .reserved, is_active := true }],
    events := [{ id := 100, code := 0, status := .confirmed,
                 start_date := 0, end_date := 10 }],
    reservations := [{ id := 50, equipment_id := none, bag_id := some 10,
                       event_id := 100, start_date := 0, end_date := 10,
                       status := .active }],
    transactions := [] }

/-- Fixture: in_progress event 1 that ended at time 0, with two withdrawal
transactions recorded and none returned, plus bag 10 currently in use. -/
def dbTwoWithdrawals : DB :=
  { equipments := [],
    bags := [{ id := 10, status := .inUse, is_active := true }],
    events := [{ id := 1, code := 1, status := .inProgress,
                 start_date := -10, end_date := 0 }],
    reservations := [],
    transactions :=
      [{ id := 21, equipment_id := none, bag_id := some 10, event_id := 1,
         transaction_type := .withdrawal, status := .completed,
         scheduled_date := 0, actual_date := none },
       { id := 22, equipment_id := none, bag_id := some 10, event_id := 1,
         transaction_type := .withdrawal, status := .completed,
         scheduled_date := 0, actual_date := none }] }

/-- Request: return the bag for event 1 (first return of the event). -/
def rqFirstReturn : TransactionCreate :=
  { equipment_id := none, bag_id := some 10, event_id := 1,
    transaction_type := .ret, scheduled_date := 0, status := .pending }

/-- Finding a bag by id after an id-preserving status rewrite of the list. -/
lemma find_bag_map_set (l : List Bag) (b : Nat) (s : BagStatus) :
    (l.map (fun x => if x.id == b then { x with status := s } else x)).find?
        (fun x => x.id == b)
      = (l.find? (fun x => x.id == b)).map (fun x => { x with status := s }) := by
  induction l with
  | nil => rfl
  | cons hd tl ih =>
    by_cases h : hd.id = b
    · rw [List.map_cons, List.find?_cons_of_pos _ (by simp [h]),
        List.find?_cons_of_pos _ (by simp [h])]
      simp [h]
    · rw [List.map_cons, List.find?_cons_of_neg _ (by simp [h]),
        List.find?_cons_of_neg _ (by simp [h]), ih]

/-- Finding an equipment row by id after an id-preserving status rewrite. -/
lemma find_equip_map_set (l : List Equipment) (i : Nat) (s : EquipmentStatus) :
    (l.map (fun x => if x.id == i then { x with status := s } else x)).find?
        (fun x => x.id == i)
      = (l.find? (fun x => x.id == i)).map (fun x => { x with status := s }) := by
  induction l with
  | nil => rfl
  | cons hd tl ih =>
    by_cases h : hd.id = i
    · rw [List.map_cons, List.find?_cons_of_pos _ (by simp [h]),
        List.find?_cons_of_pos _ (by simp [h])]
      simp [h]
    · rw [List.map_cons, List.find?_cons_of_neg _ (by simp [h]),
        List.find?_cons_of_neg _ (by simp [h]), ih]

/-- After an unconditional bag cascade, every member of the bag carries the
cascaded status. -/
lemma mem_cascade_all (db : DB) (b : Nat) (s : EquipmentStatus) :
    ∀ e ∈ (cascadeBag db b (fun _ => true) s).equipments,
      e.bag_id = some b → e.status = s := by
  intro e he hb
  unfold cascadeBag at he
  simp only [List.mem_map] at he
  obtain ⟨x, hx, rfl⟩ := he
  by_cases h : x.bag_id = some b
  · simp [h]
  · simp [h] at hb

/-- Cascading then reading the bag status: the cascade leaves the bag table
unchanged and the preceding status write is visible. -/
lemma getBagStatus_cascade_set (db : DB) (b : Nat) (cond : EquipmentStatus → Bool)
    (s : EquipmentStatus) (bs : BagStatus) (hf : (db.findBag b).isSome = true) :
    getBagStatus (cascadeBag (setBagStatus db b bs) b cond s) b = some bs := by
  obtain ⟨bg, hbg⟩ := Option.isSome_iff_exists.mp hf
  unfold getBagStatus DB.findBag cascadeBag setBagStatus
  simp only
  rw [find_bag_map_set]
  unfold DB.findBag at hbg
  rw [hbg]
  rfl

/-- The release block on a bag reservation: the bag becomes available and every
member of the bag becomes available. -/
lemma releaseResources_bag (db : DB) (r : Reservation) (b : Nat)
    (hb : r.bag_id = some b) (hf : (db.findBag b).isSome = true) :
    getBagStatus (releaseResources db r) b = some .available ∧
    ∀ e ∈ (releaseResources db r).equipments,
      e.bag_id = some b → e.status = .available := by
  unfold releaseResources
  rw [hb]
  cases hre : r.equipment_id with
  | none =>
    dsimp only
    rw [if_pos hf]
    exact ⟨getBagStatus_cascade_set _ b _ _ _ hf, mem_cascade_all _ b .available⟩
  | some eid =>
    dsimp only
    have hf2 : ((setEquipmentStatus db eid .available).findBag b).isSome = true := hf
    rw [if_pos hf2]
    exact ⟨getBagStatus_cascade_set _ b _ _ _ hf2, mem_cascade_all _ b .available⟩

/-- C1 counterexample: in dbBagRes the member equipment 1 of bag 10 is under
maintenance, not reserved, yet cancelling the active bag reservation 50 sets
it to available; the claimed conditional cascade (only reserved members
released, others unchanged) is refuted at this input. -/
theorem C1_counterexample :
    getEquipmentStatus dbBagRes 1 = some .maintenance ∧
    (cancel_reservation dbBagRes 50).toOption.map
        (fun p => getEquipmentStatus p.1 1) = some (some .available) :=
  ⟨rfl, rfl⟩

/-- C1 (amended): when a reservation on a bag resource has its status set to
cancelled or completed via update_reservation or cancel_reservation, the bag
becomes available and the release cascade unconditionally sets every member
equipment of the bag to available, regardless of the member prior status. -/
theorem C1_bag_release_cascade (db : DB) (b : Nat) :
    (∀ rid rq db2 r2, update_reservation db rid rq = .ok (db2, r2) →
      (rq.status = some .cancelled ∨ rq.status = some .completed) →
      r2.bag_id = some b → (db.findBag b).isSome = true →
      getBagStatus db2 b = some .available ∧
      ∀ e ∈ db2.equipments, e.bag_id = some b → e.status = .available) ∧
    (∀ rid db2 r2, cancel_reservation db rid = .ok (db2, r2) →
      r2.bag_id = some b → (db.findBag b).isSome = true →
      getBagStatus db2 b = some .available ∧
      ∀ e ∈ db2.equipments, e.bag_id = some b → e.status = .available) := by
  constructor
  · intro rid rq db2 r2 hok hst hb hf
    unfold update_reservation at hok
    cases hfind : db.findReservation rid with
    | none =>
      rw [hfind] at hok
      exact Except.noConfusion hok
    | some r =>
      rw [hfind] at hok
      dsimp only at hok
      split at hok
      · exact Except.noConfusion hok
      · split at hok
        · exact Except.noConfusion hok
        · simp only [Except.ok.injEq, Prod.mk.injEq] at hok
          obtain ⟨hdb, hr⟩ := hok
          subst hr
          subst hdb
          have hcond : (rq.status == some ReservationStatus.cancelled
              || rq.status == some ReservationStatus.completed) = true := by
            rcases hst with h | h <;> simp [h]
          rw [if_pos hcond]
          exact releaseResources_bag _ _ _ hb hf
  · intro rid db2 r2 hok hb hf
    unfold cancel_reservation at hok
    cases hfind : db.findReservation rid with
    | none =>
      rw [hfind] at hok
      exact Except.noConfusion hok
    | some r =>
      rw [hfind] at hok
      dsimp only at hok
      split at hok
      · exact Except.noConfusion hok
      · simp only [Except.ok.injEq, Prod.mk.injEq] at hok
        obtain ⟨hdb, hr⟩ := hok
        subst hdb
        subst hr
        exact releaseResources_bag _ _ _ hb hf

/-- Result state of cancelling reservation 50 in dbBagRes. -/
def dbBagResReleased : DB :=
  { equipments := [{ id := 1, status := .available, bag_id := some 10 },
                   { id := 2, status := .available, bag_id := some 10 }],
    bags := [{ id := 10, status := .available, is_active := true }],
    events := [{ id := 100, code := 0, status := .confirmed,
                 start_date := 0, end_date := 10 }],
    reservations := [{ id := 50, equipment_id := none, bag_id := some 10,
                       event_id := 100, start_date := 0, end_date := 10,
                       status := .cancelled }],
    transactions := [] }

/-- Reservation 50 after cancellation. -/
def resv50Cancelled : Reservation :=
  { id := 50, equipment_id := none, bag_id := some 10, event_id := 100,
    start_date := 0, end_date := 10, status := .cancelled }

/-- Witness for C1 at the concrete store dbBagRes. -/
theorem C1_witness :
    getBagStatus dbBagResReleased 10 = some BagStatus.available :=
  ((C1_bag_release_cascade dbBagRes 10).2 50 dbBagResReleased resv50Cancelled
    rfl rfl rfl).1

/-- Replacing the row with a given id by a row carrying the same id commutes
with the primary-key lookup. -/
lemma find_map_replace_tx (l : List Transaction) (i : Nat) (t2 : Transaction)
    (h2 : t2.id = i) :
    (l.map (fun x => if x.id == i then t2 else x)).find? (fun x => x.id == i)
      = (l.find? (fun x => x.id == i)).map (fun _ => t2) := by
  induction l with
  | nil => rfl
  | cons hd tl ih =>
    by_cases h : hd.id = i
    · rw [List.map_cons, List.find?_cons_of_pos _ (by simp [h, h2]),
        List.find?_cons_of_pos _ (by simp [h])]
      simp [h]
    · rw [List.map_cons, List.find?_cons_of_neg _ (by simp [h]),
        List.find?_cons_of_neg _ (by simp [h]), ih]

/-- Fixture: one already-cancelled transaction 7 and one completed
transaction 8. -/
def txCancelled7 : Transaction :=
  { id := 7, equipment_id := some 1, bag_id := none, event_id := 100,
    transaction_type := .withdrawal, status := .cancelled,
    scheduled_date := 0, actual_date := none }

/-- Fixture: completed transaction 8. -/
def txCompleted8 : Transaction :=
  { id := 8, equipment_id := some 1, bag_id := none, event_id := 100,
    transaction_type := .withdrawal, status := .completed,
    scheduled_date := 0, actual_date := none }

/-- Fixture store holding the two terminal transactions. -/
def dbTermTx : DB :=
  { equipments := [], bags := [], events := [], reservations := [],
    transactions := [txCancelled7, txCompleted8] }

/-- C2 counterexample: transaction 7 of dbTermTx is already cancelled, yet
cancel_transaction succeeds on it instead of failing with a
precondition-failed error, refuting the claim as stated. -/
theorem C2_counterexample :
    getTransactionStatus dbTermTx 7 = some .cancelled ∧
    exceptOk (cancel_transaction dbTermTx 7) = true :=
  ⟨rfl, rfl⟩

/-- C2 (amended): cancelling a reservation that is not active fails with a
precondition-failed error and leaves the store unchanged; cancelling an
already-completed transaction fails likewise with the store unchanged; but
cancelling an already-cancelled transaction succeeds, leaving its status
cancelled. -/
theorem C2_terminal_cancel (db : DB) :
    (∀ rid r, db.findReservation rid = some r → r.status ≠ .active →
      cancel_reservation db rid = .error .reservationNotActive ∧
      runOp db (cancel_reservation db rid) = db) ∧
    (∀ tid t, db.findTransaction tid = some t → t.status = .completed →
      cancel_transaction db tid = .error .transactionCompleted ∧
      runOp db (cancel_transaction db tid) = db) ∧
    (∀ tid t, db.findTransaction tid = some t → t.status = .cancelled →
      exceptOk (cancel_transaction db tid) = true ∧
      getTransactionStatus (runOp db (cancel_transaction db tid)) tid
        = some .cancelled) := by
  refine ⟨?_, ?_, ?_⟩
  · intro rid r hfind hns
    have h1 : cancel_reservation db rid = .error .reservationNotActive := by
      unfold cancel_reservation
      rw [hfind]
      simp [hns]
    exact ⟨h1, (congrArg (runOp db) h1).trans rfl⟩
  · intro tid t hfind ht
    have h1 : cancel_transaction db tid = .error .transactionCompleted := by
      unfold cancel_transaction
      rw [hfind]
      simp [ht]
    exact ⟨h1, (congrArg (runOp db) h1).trans rfl⟩
  · intro tid t hfind ht
    have hfind2 : List.find? (fun x => x.id == tid) db.transactions = some t :=
      hfind
    have hid := List.find?_some hfind2
    have h1 : cancel_transaction db tid =
        .ok (replaceTransaction db tid { t with status := .cancelled },
             { t with status := .cancelled }) := by
      unfold cancel_transaction
      rw [hfind]
      simp [ht]
    constructor
    · rw [h1]
      rfl
    · rw [h1]
      unfold runOp getTransactionStatus DB.findTransaction replaceTransaction
      dsimp only
      rw [find_map_replace_tx _ _ _ (by simpa using hid)]
      rw [hfind2]
      rfl

/-- Witness for C2 at the concrete store dbTermTx. -/
theorem C2_witness :
    cancel_transaction dbTermTx 8 = .error .transactionCompleted ∧
    exceptOk (cancel_transaction dbTermTx 7) = true :=
  ⟨((C2_terminal_cancel dbTermTx).2.1 8 txCompleted8 rfl rfl).1,
   ((C2_terminal_cancel dbTermTx).2.2 7 txCancelled7 rfl rfl).1⟩

/-- Propositional reading of the per-row conflict predicate. -/
lemma conflictPred_iff (eid bid : Option Nat) (s e : Int) (excl : Option Nat)
    (r : Reservation) :
    conflictPred eid bid s e excl r = true ↔
      (r.status = .active ∧
       ((eid.isSome = true ∧ r.equipment_id = eid) ∨
        (bid.isSome = true ∧ r.bag_id = bid)) ∧
       r.start_date < e ∧ s < r.end_date ∧
       (∀ x, excl = some x → r.id ≠ x)) := by
  unfold conflictPred
  cases excl with
  | none => simp [and_assoc]
  | some x => simp [and_assoc]

/-- C3: the conflict check returns true exactly when some stored reservation
is active, matches the given resource id (equipment or bag), differs from the
excluded reservation id when one is given, and overlaps the half-open window
via existing.start less than end and existing.end greater than start; and a
window starting exactly at the end_date of a stored reservation never makes
that reservation a conflict. The check is a pure query: it returns a boolean
and builds no new store. -/
theorem C3_conflict_check_correct (db : DB) (eid bid : Option Nat)
    (s e : Int) (excl : Option Nat) :
    (check_reservation_conflict db eid bid s e excl = true ↔
      ∃ r, r ∈ db.reservations ∧ r.status = .active ∧
        ((eid.isSome = true ∧ r.equipment_id = eid) ∨
         (bid.isSome = true ∧ r.bag_id = bid)) ∧
        r.start_date < e ∧ s < r.end_date ∧
        (∀ x, excl = some x → r.id ≠ x)) ∧
    (∀ r ∈ db.reservations,
      conflictPred eid bid r.end_date e excl r = false) := by
  constructor
  · unfold check_reservation_conflict
    rw [List.any_eq_true]
    constructor
    · rintro ⟨r, hr, hp⟩
      exact ⟨r, hr, (conflictPred_iff eid bid s e excl r).mp hp⟩
    · rintro ⟨r, hr, hp⟩
      exact ⟨r, hr, (conflictPred_iff eid bid s e excl r).mpr hp⟩
  · intro r _
    unfold conflictPred
    simp [lt_irrefl]

/-- Fixture: one active reservation on equipment 5 over the window 10 to 20. -/
def resvActive1 : Reservation :=
  { id := 1, equipment_id := some 5, bag_id := none, event_id := 100,
    start_date := 10, end_date := 20, status := .active }

/-- Fixture store for the conflict-check witness. -/
def dbConflictW : DB :=
  { equipments := [], bags := [], events := [],
    reservations := [resvActive1], transactions := [] }

/-- Witness for C3: an overlapping window on the same equipment conflicts. -/
theorem C3_witness :
    check_reservation_conflict dbConflictW (some 5) none 15 25 none = true :=
  (C3_conflict_check_correct dbConflictW (some 5) none 15 25 none).1.mpr
    ⟨resvActive1, by simp [dbConflictW], by simp [resvActive1]⟩

/-- Setting then reading an equipment status at the same id. -/
lemma getEquipmentStatus_set_self (db : DB) (i : Nat) (s : EquipmentStatus)
    (hf : (db.findEquipment i).isSome = true) :
    getEquipmentStatus (setEquipmentStatus db i s) i = some s := by
  obtain ⟨x, hx⟩ := Option.isSome_iff_exists.mp hf
  unfold getEquipmentStatus DB.findEquipment setEquipmentStatus
  dsimp only
  rw [find_equip_map_set]
  unfold DB.findEquipment at hx
  rw [hx]
  rfl

/-- A passed equipment precondition implies the equipment row exists. -/
lemma reservationEquipmentCheck_found (db : DB) (rq : ReservationCreate)
    (eid : Nat) (he : rq.equipment_id = some eid)
    (hok : reservationEquipmentCheck db rq = .ok ()) :
    (db.findEquipment eid).isSome = true := by
  unfold reservationEquipmentCheck at hok
  rw [he] at hok
  dsimp only at hok
  cases hfe : db.findEquipment eid with
  | none =>
    rw [hfe] at hok
    exact Except.noConfusion hok
  | some e => rfl

/-- A passed bag precondition implies the bag row exists. -/
lemma reservationBagCheck_found (db : DB) (rq : ReservationCreate)
    (bid : Nat) (hb : rq.bag_id = some bid)
    (hok : reservationBagCheck db rq = .ok ()) :
    (db.findBag bid).isSome = true := by
  unfold reservationBagCheck at hok
  rw [hb] at hok
  dsimp only at hok
  cases hfb : db.findBag bid with
  | none =>
    rw [hfb] at hok
    exact Except.noConfusion hok
  | some b => rfl

/-- Fixture: confirmed event 100 plus a free available equipment 1. -/
def dbEquipAvail : DB :=
  { equipments := [{ id := 1, status := .available, bag_id := none }],
    bags := [],
    events := [{ id := 100, code := 0, status := .confirmed,
                 start_date := 0, end_date := 10 }],
    reservations := [], transactions := [] }

/-- Request: reserve equipment 1 with a payload status of completed. -/
def rqResvCompleted : ReservationCreate :=
  { equipment_id := some 1, bag_id := none, event_id := 100,
    start_date := 0, end_date := 10, reserved_by := 1, status := .completed }

/-- C4 counterexample: the creation payload may carry any status and the route
copies it verbatim, so this successful creation yields a reservation whose
status is completed, not active, refuting the claim as stated. -/
theorem C4_counterexample :
    rqResvCompleted.pydanticOk = true ∧
    (create_reservation dbEquipAvail rqResvCompleted 9).toOption.map
        (fun p => p.2.status) = some ReservationStatus.completed :=
  ⟨rfl, rfl⟩

/-- C4 (amended): a successful reservation creation stores the status carried
by the request payload, whose schema default is active; the equipment
resource is set to reserved, and a bag resource is set to reserved together
with every member equipment of the bag, regardless of prior member status. -/
theorem C4_creation_effects (db : DB) (rq : ReservationCreate) (nid : Nat)
    (db2 : DB) (r : Reservation)
    (hok : create_reservation db rq nid = .ok (db2, r)) :
    r.status = rq.status ∧
    (∀ eid, rq.equipment_id = some eid → rq.bag_id = none →
      getEquipmentStatus db2 eid = some .reserved) ∧
    (∀ bid, rq.bag_id = some bid →
      getBagStatus db2 bid = some .reserved ∧
      ∀ e ∈ db2.equipments, e.bag_id = some bid → e.status = .reserved) := by
  unfold create_reservation at hok
  cases hev : db.findEvent rq.event_id with
  | none =>
    rw [hev] at hok
    exact Except.noConfusion hok
  | some ev =>
    rw [hev] at hok
    dsimp only at hok
    split at hok
    · cases hec : reservationEquipmentCheck db rq with
      | error e =>
        rw [hec] at hok
        exact Except.noConfusion hok
      | ok u =>
        rw [hec] at hok
        dsimp only at hok
        cases hbc : reservationBagCheck db rq with
        | error e =>
          rw [hbc] at hok
          exact Except.noConfusion hok
        | ok v =>
          rw [hbc] at hok
          dsimp only at hok
          split at hok
          · exact Except.noConfusion hok
          · simp only [Except.ok.injEq, Prod.mk.injEq] at hok
            obtain ⟨hdb, hr⟩ := hok
            subst hr
            subst hdb
            refine ⟨rfl, ?_, ?_⟩
            · intro eid he hbnone
              unfold applyResourceReserve
              rw [he, hbnone]
              dsimp only
              exact getEquipmentStatus_set_self _ eid .reserved
                (reservationEquipmentCheck_found db rq eid he hec)
            · intro bid hb
              unfold applyResourceReserve
              rw [hb]
              dsimp only
              have hfb := reservationBagCheck_found db rq bid hb hbc
              cases hre : rq.equipment_id with
              | none =>
                dsimp only
                split
                · exact ⟨getBagStatus_cascade_set _ bid _ _ _ hfb,
                         mem_cascade_all _ bid .reserved⟩
                · rename_i hcond
                  exact absurd hfb hcond
              | some eid0 =>
                dsimp only
                split
                · exact ⟨getBagStatus_cascade_set _ bid _ _ _ hfb,
                         mem_cascade_all _ bid .reserved⟩
                · rename_i hcond
                  exact absurd hfb hcond
    · exact Except.noConfusion hok

/-- Fixture: confirmed event 100 and available bag 10 whose two members are
available and under maintenance. -/
def dbBagAvail : DB :=
  { equipments := [{ id := 1, status := .available, bag_id := some 10 },
                   { id := 2, status := .maintenance, bag_id := some 10 }],
    bags := [{ id := 10, status := .available, is_active := true }],
    events := [{ id := 100, code := 0, status := .confirmed,
                 start_date := 0, end_date := 10 }],
    reservations := [], transactions := [] }

/-- Request: reserve bag 10 with the default payload status active. -/
def rqBagResv : ReservationCreate :=
  { equipment_id := none, bag_id := some 10, event_id := 100,
    start_date := 0, end_date := 10, reserved_by := 1, status := .active }

/-- Store after reserving bag 10 in dbBagAvail. -/
def dbBagAvailReserved : DB :=
  { equipments := [{ id := 1, status := .reserved, bag_id := some 10 },
                   { id := 2, status := .reserved, bag_id := some 10 }],
    bags := [{ id := 10, status := .reserved, is_active := true }],
    events := [{ id := 100, code := 0, status := .confirmed,
                 start_date := 0, end_date := 10 }],
    reservations := [{ id := 9, equipment_id := none, bag_id := some 10,
                       event_id := 100, start_date := 0, end_date := 10,
                       status := .active }],
    transactions := [] }

/-- Reservation row created for bag 10. -/
def resv9Active : Reservation :=
  { id := 9, equipment_id := none, bag_id := some 10, event_id := 100,
    start_date := 0, end_date := 10, status := .active }

/-- Witness for C4 at the concrete store dbBagAvail. -/
theorem C4_witness :
    resv9Active.status = rqBagResv.status ∧
    getBagStatus dbBagAvailReserved 10 = some BagStatus.reserved :=
  ⟨(C4_creation_effects dbBagAvail rqBagResv 9 dbBagAvailReserved resv9Active
      rfl).1,
   ((C4_creation_effects dbBagAvail rqBagResv 9 dbBagAvailReserved resv9Active
      rfl).2.2 10 rfl).1⟩

/-- C5: evaluation of the code at the failing input. dbTwoWithdrawals stores
two withdrawals and no return for in_progress event 1 whose end_date plus 24
hours has passed at time 200000. Creating the first return should, by the
claim, leave the event in_progress because the return count including the new
one (1) is below the withdrawal count (2); the code instead counts the
already-flushed new return and adds one more on top, reaching 2, and marks
the event completed. -/
theorem C5_double_count_evaluation :
    getEventStatus dbTwoWithdrawals 1 = some .inProgress ∧
    countEventTransactions dbTwoWithdrawals 1 .withdrawal = 2 ∧
    countEventTransactions dbTwoWithdrawals 1 .ret = 0 ∧
    (create_transaction dbTwoWithdrawals rqFirstReturn 200000 30).toOption.map
        (fun p => getEventStatus p.1 1) = some (some .completed) :=
  ⟨rfl, rfl, rfl, rfl⟩

/-- The event auto-transition step never touches the equipment table. -/
lemma applyEventTransition_equipments (db : DB) (rq : TransactionCreate)
    (now : Int) :
    (applyEventTransition db rq now).equipments = db.equipments := by
  unfold applyEventTransition
  cases hf : db.findEvent rq.event_id with
  | none => rfl
  | some ev =>
    dsimp only
    cases rq.transaction_type with
    | withdrawal =>
      dsimp only
      split <;> rfl
    | ret =>
      dsimp only
      split
      · split
        · split <;> rfl
        · rfl
      · rfl

/-- A passed transaction equipment precondition implies the row exists. -/
lemma transactionEquipmentCheck_found (db : DB) (rq : TransactionCreate)
    (eid : Nat) (he : rq.equipment_id = some eid)
    (hok : transactionEquipmentCheck db rq = .ok ()) :
    (db.findEquipment eid).isSome = true := by
  unfold transactionEquipmentCheck at hok
  rw [he] at hok
  dsimp only at hok
  cases hfe : db.findEquipment eid with
  | none =>
    rw [hfe] at hok
    exact Except.noConfusion hok
  | some e => rfl

/-- Reading an equipment status through the event auto-transition step. -/
lemma getEquipmentStatus_applyEventTransition (db : DB) (rq : TransactionCreate)
    (now : Int) (i : Nat) :
    getEquipmentStatus (applyEventTransition db rq now) i
      = getEquipmentStatus db i := by
  unfold getEquipmentStatus DB.findEquipment
  rw [applyEventTransition_equipments]

/-- Without an equipment resource the equipment transition step is skipped. -/
lemma applyEquipmentTransition_none (db : DB) (rq : TransactionCreate)
    (he : rq.equipment_id = none) : applyEquipmentTransition db rq = db := by
  unfold applyEquipmentTransition
  rw [he]

/-- Without a bag resource the bag transition step is skipped. -/
lemma applyBagTransition_none (db : DB) (rq : TransactionCreate)
    (hb : rq.bag_id = none) : applyBagTransition db rq = db := by
  unfold applyBagTransition
  rw [hb]

/-- The equipment transition step on a present equipment resource: in_use on
withdrawal, available on return. -/
lemma applyEquipmentTransition_status (db : DB) (rq : TransactionCreate)
    (eid : Nat) (he : rq.equipment_id = some eid)
    (hfe : (db.findEquipment eid).isSome = true) :
    getEquipmentStatus (applyEquipmentTransition db rq) eid =
      some (match rq.transaction_type with
            | .withdrawal => .inUse
            | .ret => .available) := by
  unfold applyEquipmentTransition
  rw [he]
  dsimp only
  rw [if_pos hfe]
  cases rq.transaction_type with
  | withdrawal => exact getEquipmentStatus_set_self db eid .inUse hfe
  | ret => exact getEquipmentStatus_set_self db eid .available hfe

/-- The bag transition step on a present bag: the member rewrite is exactly
the conditional cascade of the source. -/
lemma applyBagTransition_equipments (db : DB) (rq : TransactionCreate)
    (bid : Nat) (hb : rq.bag_id = some bid)
    (hfb : (db.findBag bid).isSome = true) :
    (applyBagTransition db rq).equipments =
      db.equipments.map (fun e =>
        match rq.transaction_type with
        | .withdrawal =>
          if e.bag_id == some bid
              && (e.status == .available || e.status == .reserved) then
            { e with status := .inUse }
          else e
        | .ret =>
          if e.bag_id == some bid && (e.status == .inUse) then
            { e with status := .available }
          else e) := by
  unfold applyBagTransition
  rw [hb]
  dsimp only
  rw [if_pos hfb]
  cases rq.transaction_type <;> rfl

/-- C6: a successful withdrawal or return creation stores the transaction with
status completed; an equipment resource moves to in_use on withdrawal and to
available on return; a bag resource rewrites exactly those members whose
status is available or reserved (withdrawal, to in_use) or exactly in_use
(return, to available), leaving every other equipment row untouched. -/
theorem C6_transaction_effects (db : DB) (rq : TransactionCreate) (now : Int)
    (nid : Nat) (db2 : DB) (t : Transaction)
    (hok : create_transaction db rq now nid = .ok (db2, t))
    (hpy : rq.pydanticOk = true) :
    t.status = .completed ∧
    (∀ eid, rq.equipment_id = some eid →
      getEquipmentStatus db2 eid =
        some (match rq.transaction_type with
              | .withdrawal => .inUse
              | .ret => .available)) ∧
    (∀ bid bag, rq.bag_id = some bid → db.findBag bid = some bag →
      db2.equipments = db.equipments.map (fun e =>
        match rq.transaction_type with
        | .withdrawal =>
          if e.bag_id == some bid
              && (e.status == .available || e.status == .reserved) then
            { e with status := .inUse }
          else e
        | .ret =>
          if e.bag_id == some bid && (e.status == .inUse) then
            { e with status := .available }
          else e)) := by
  unfold create_transaction at hok
  cases hev : db.findEvent rq.event_id with
  | none =>
    rw [hev] at hok
    exact Except.noConfusion hok
  | some ev =>
    rw [hev] at hok
    dsimp only at hok
    split at hok
    · cases hec : transactionEquipmentCheck db rq with
      | error e =>
        rw [hec] at hok
        exact Except.noConfusion hok
      | ok u =>
        rw [hec] at hok
        dsimp only at hok
        cases hbc : transactionBagCheck db rq with
        | error e =>
          rw [hbc] at hok
          exact Except.noConfusion hok
        | ok v =>
          rw [hbc] at hok
          dsimp only at hok
          split at hok
          · split at hok
            · simp only [Except.ok.injEq, Prod.mk.injEq] at hok
              obtain ⟨hdb, hr⟩ := hok
              subst hr
              refine ⟨rfl, ?_, ?_⟩
              · intro eid he
                have hbnone : rq.bag_id = none := by
                  cases hbv : rq.bag_id with
                  | none => rfl
                  | some b0 =>
                    unfold TransactionCreate.pydanticOk at hpy
                    rw [he, hbv] at hpy
                    exact absurd hpy (by simp)
                subst hdb
                have hfe := transactionEquipmentCheck_found db rq eid he hec
                rw [getEquipmentStatus_applyEventTransition,
                  applyBagTransition_none _ _ hbnone]
                exact applyEquipmentTransition_status _ rq eid he hfe
              · intro bid bag hb hfb
                have henone : rq.equipment_id = none := by
                  cases hev2 : rq.equipment_id with
                  | none => rfl
                  | some e0 =>
                    unfold TransactionCreate.pydanticOk at hpy
                    rw [hev2, hb] at hpy
                    exact absurd hpy (by simp)
                subst hdb
                have hfb2 : (db.findBag bid).isSome = true := by
                  rw [hfb]
                  rfl
                rw [applyEventTransition_equipments,
                  applyEquipmentTransition_none _ _ henone]
                exact applyBagTransition_equipments _ rq bid hb hfb2
            · exact Except.noConfusion hok
          · rename_i hstatus
            exfalso
            cases h2 : rq.transaction_type <;> rw [h2] at hstatus <;>
              exact hstatus rfl
    · exact Except.noConfusion hok

/-- Fixture: confirmed event 200 and reserved equipment 3 with no bag. -/
def dbEquipReserved : DB :=
  { equipments := [{ id := 3, status := .reserved, bag_id := none }],
    bags := [],
    events := [{ id := 200, code := 2, status := .confirmed,
                 start_date := 0, end_date := 10 }],
    reservations := [], transactions := [] }

/-- Request: withdraw equipment 3 for event 200. -/
def rqWithdrawEquip : TransactionCreate :=
  { equipment_id := some 3, bag_id := none, event_id := 200,
    transaction_type := .withdrawal, scheduled_date := 5, status := .pending }

/-- Transaction row created by the withdrawal. -/
def txW31 : Transaction :=
  { id := 31, equipment_id := some 3, bag_id := none, event_id := 200,
    transaction_type := .withdrawal, status := .completed,
    scheduled_date := 5, actual_date := none }

/-- Store after the withdrawal of equipment 3. -/
def dbEquipWithdrawn : DB :=
  { equipments := [{ id := 3, status := .inUse, bag_id := none }],
    bags := [],
    events := [{ id := 200, code := 2, status := .inProgress,
                 start_date := 0, end_date := 10 }],
    reservations := [], transactions := [txW31] }

/-- Witness for C6 at the concrete store dbEquipReserved. -/
theorem C6_witness :
    txW31.status = TransactionStatus.completed ∧
    getEquipmentStatus dbEquipWithdrawn 3 = some EquipmentStatus.inUse :=
  ⟨(C6_transaction_effects dbEquipReserved rqWithdrawEquip 0 31
      dbEquipWithdrawn txW31 rfl rfl).1,
   (C6_transaction_effects dbEquipReserved rqWithdrawEquip 0 31
      dbEquipWithdrawn txW31 rfl rfl).2.1 3 rfl⟩

/-- With the event preconditions satisfied, create_reservation propagates any
error of the equipment or bag validation block. -/
lemma create_reservation_check_err (db : DB) (rq : ReservationCreate)
    (nid : Nat) (ev : Event) (hev : db.findEvent rq.event_id = some ev)
    (hevs : ev.status = .confirmed ∨ ev.status = .inProgress) :
    (∀ err, reservationEquipmentCheck db rq = .error err →
      create_reservation db rq nid = .error err) ∧
    (∀ err, reservationEquipmentCheck db rq = .ok () →
      reservationBagCheck db rq = .error err →
      create_reservation db rq nid = .error err) := by
  have hc : (ev.status == EventStatus.confirmed
      || ev.status == EventStatus.inProgress) = true := by
    rcases hevs with h | h <;> simp [h]
  constructor
  · intro err hchk
    unfold create_reservation
    rw [hev]
    dsimp only
    rw [if_pos hc, hchk]
  · intro err hok hchk
    unfold create_reservation
    rw [hev]
    dsimp only
    rw [if_pos hc, hok]
    dsimp only
    rw [hchk]

/-- Error kinds of the equipment validation block of create_reservation. -/
lemma reservationEquipmentCheck_errors (db : DB) (rq : ReservationCreate)
    (eid : Nat) (he : rq.equipment_id = some eid) :
    (db.findEquipment eid = none →
      reservationEquipmentCheck db rq = .error .equipmentNotFound) ∧
    (∀ e, db.findEquipment eid = some e →
      (e.bag_id.isSome = true →
        reservationEquipmentCheck db rq = .error .equipmentBelongsToBag) ∧
      (e.bag_id = none → e.status ≠ .available →
        reservationEquipmentCheck db rq = .error .equipmentNotAvailable)) := by
  constructor
  · intro hfe
    unfold reservationEquipmentCheck
    rw [he]
    dsimp only
    rw [hfe]
  · intro e hfe
    constructor
    · intro hbag
      unfold reservationEquipmentCheck
      rw [he]
      dsimp only
      rw [hfe]
      dsimp only
      rw [if_pos hbag]
    · intro hbagn hna
      unfold reservationEquipmentCheck
      rw [he]
      dsimp only
      rw [hfe]
      dsimp only
      simp [hbagn, hna]

/-- Error kinds of the bag validation block of create_reservation. -/
lemma reservationBagCheck_errors (db : DB) (rq : ReservationCreate)
    (bid : Nat) (hb : rq.bag_id = some bid) :
    (db.findBag bid = none →
      reservationBagCheck db rq = .error .bagNotFound) ∧
    (∀ b, db.findBag bid = some b →
      (b.is_active = false →
        reservationBagCheck db rq = .error .bagInactive) ∧
      (b.is_active = true → b.status ≠ .available →
        reservationBagCheck db rq = .error .bagNotAvailable)) := by
  constructor
  · intro hfb
    unfold reservationBagCheck
    rw [hb]
    dsimp only
    rw [hfb]
  · intro b hfb
    constructor
    · intro hact
      unfold reservationBagCheck
      rw [hb]
      dsimp only
      rw [hfb]
      dsimp only
      simp [hact]
    · intro hact hna
      unfold reservationBagCheck
      rw [hb]
      dsimp only
      rw [hfb]
      dsimp only
      simp [hact, hna]

/-- C7: create_reservation rejects, each with its own error kind and with the
store left unchanged, a missing event, an event that is neither confirmed nor
in_progress, a missing equipment, an equipment belonging to a bag, an
equipment that is not available, a missing bag, an inactive bag, and a bag
that is not available. -/
theorem C7_reservation_rejections (db : DB) (rq : ReservationCreate)
    (nid : Nat) :
    (db.findEvent rq.event_id = none →
      create_reservation db rq nid = .error .eventNotFound) ∧
    (∀ ev, db.findEvent rq.event_id = some ev →
      ¬(ev.status = .confirmed ∨ ev.status = .inProgress) →
      create_reservation db rq nid = .error .eventStatusInvalid) ∧
    (∀ ev eid, db.findEvent rq.event_id = some ev →
      (ev.status = .confirmed ∨ ev.status = .inProgress) →
      rq.equipment_id = some eid →
      (db.findEquipment eid = none →
        create_reservation db rq nid = .error .equipmentNotFound) ∧
      (∀ e, db.findEquipment eid = some e →
        (e.bag_id.isSome = true →
          create_reservation db rq nid = .error .equipmentBelongsToBag) ∧
        (e.bag_id = none → e.status ≠ .available →
          create_reservation db rq nid = .error .equipmentNotAvailable))) ∧
    (∀ ev bid, db.findEvent rq.event_id = some ev →
      (ev.status = .confirmed ∨ ev.status = .inProgress) →
      reservationEquipmentCheck db rq = .ok () →
      rq.bag_id = some bid →
      (db.findBag bid = none →
        create_reservation db rq nid = .error .bagNotFound) ∧
      (∀ b, db.findBag bid = some b →
        (b.is_active = false →
          create_reservation db rq nid = .error .bagInactive) ∧
        (b.is_active = true → b.status ≠ .available →
          create_reservation db rq nid = .error .bagNotAvailable))) ∧
    (∀ err, create_reservation db rq nid = .error err →
      runOp db (create_reservation db rq nid) = db) := by
  refine ⟨?_, ?_, ?_, ?_, ?_⟩
  · intro hev
    unfold create_reservation
    rw [hev]
  · intro ev hev hns
    have h1 : ev.status ≠ .confirmed := fun h => hns (Or.inl h)
    have h2 : ev.status ≠ .inProgress := fun h => hns (Or.inr h)
    unfold create_reservation
    rw [hev]
    dsimp only
    simp [h1, h2]
  · intro ev eid hev hevs he
    have hprop := (create_reservation_check_err db rq nid ev hev hevs).1
    have herr := reservationEquipmentCheck_errors db rq eid he
    refine ⟨fun hfe => hprop _ (herr.1 hfe), ?_⟩
    intro e hfe
    exact ⟨fun hbag => hprop _ ((herr.2 e hfe).1 hbag),
           fun hbagn hna => hprop _ ((herr.2 e hfe).2 hbagn hna)⟩
  · intro ev bid hev hevs hok hb
    have hprop := (create_reservation_check_err db rq nid ev hev hevs).2
    have herr := reservationBagCheck_errors db rq bid hb
    refine ⟨fun hfb => hprop _ hok (herr.1 hfb), ?_⟩
    intro b hfb
    exact ⟨fun hact => hprop _ hok ((herr.2 b hfb).1 hact),
           fun hact hna => hprop _ hok ((herr.2 b hfb).2 hact hna)⟩
  · intro err h
    exact (congrArg (runOp db) h).trans rfl

/-- Fixture: the empty store. -/
def dbEmpty : DB :=
  { equipments := [], bags := [], events := [],
    reservations := [], transactions := [] }

/-- Request: reserve equipment 1 individually although it belongs to bag 10. -/
def rqEquipInBag : ReservationCreate :=
  { equipment_id := some 1, bag_id := none, event_id := 100,
    start_date := 0, end_date := 10, reserved_by := 1, status := .active }

/-- Witness for C7 at concrete stores: a missing event is rejected with
eventNotFound and leaves the store unchanged, and an equipment belonging to a
bag is rejected with equipmentBelongsToBag. -/
theorem C7_witness :
    create_reservation dbEmpty rqBagResv 1 = .error .eventNotFound ∧
    runOp dbEmpty (create_reservation dbEmpty rqBagResv 1) = dbEmpty ∧
    create_reservation dbBagRes rqEquipInBag 77
      = .error .equipmentBelongsToBag :=
  ⟨(C7_reservation_rejections dbEmpty rqBagResv 1).1 rfl,
   (C7_reservation_rejections dbEmpty rqBagResv 1).2.2.2.2 .eventNotFound
     ((C7_reservation_rejections dbEmpty rqBagResv 1).1 rfl),
   (((C7_reservation_rejections dbBagRes rqEquipInBag 77).2.2.1
       { id := 100, code := 0, status := .confirmed,
         start_date := 0, end_date := 10 } 1 rfl (Or.inl rfl) rfl).2
     { id := 1, status := .maintenance, bag_id := some 10 } rfl).1 rfl⟩

/-- Propositional reading of the stored-state date invariant. -/
lemma datesOk_split (db : DB) :
    datesOk db = true ↔
      (∀ e ∈ db.events, e.start_date <= e.end_date) ∧
      (∀ r ∈ db.reservations, r.start_date <= r.end_date) := by
  unfold datesOk
  simp [List.all_eq_true]

/-- The reserve writes of create_reservation never touch the event table. -/
lemma applyResourceReserve_events (db : DB) (rq : ReservationCreate) :
    (applyResourceReserve db rq).events = db.events := by
  unfold applyResourceReserve
  cases rq.equipment_id <;> cases rq.bag_id <;> dsimp only <;>
    first
    | rfl
    | (split <;> rfl)

/-- The reserve writes of create_reservation never touch the reservations. -/
lemma applyResourceReserve_reservations (db : DB) (rq : ReservationCreate) :
    (applyResourceReserve db rq).reservations = db.reservations := by
  unfold applyResourceReserve
  cases rq.equipment_id <;> cases rq.bag_id <;> dsimp only <;>
    first
    | rfl
    | (split <;> rfl)

/-- The release writes never touch the event table. -/
lemma releaseResources_events (db : DB) (r : Reservation) :
    (releaseResources db r).events = db.events := by
  unfold releaseResources
  cases r.equipment_id <;> cases r.bag_id <;> dsimp only <;>
    first
    | rfl
    | (split <;> rfl)

/-- The release writes never touch the reservations. -/
lemma releaseResources_reservations (db : DB) (r : Reservation) :
    (releaseResources db r).reservations = db.reservations := by
  unfold releaseResources
  cases r.equipment_id <;> cases r.bag_id <;> dsimp only <;>
    first
    | rfl
    | (split <;> rfl)

/-- C8: on a store satisfying the date invariant, every accepted event or
reservation create or update preserves it (creation dates are validated by
the request schema, update dates by the commit-time CHECK constraint), and an
update whose patched end_date falls before the patched start_date is
rejected. -/
theorem C8_date_invariant (db : DB) (hdb : datesOk db = true) :
    (∀ (rq : EventCreate) nid db2 ev, rq.pydanticOk = true →
      create_event db rq nid = .ok (db2, ev) → datesOk db2 = true) ∧
    (∀ eid (rq : EventUpdate) db2 ev,
      update_event db eid rq = .ok (db2, ev) → datesOk db2 = true) ∧
    (∀ (rq : ReservationCreate) nid db2 r, rq.pydanticOk = true →
      create_reservation db rq nid = .ok (db2, r) → datesOk db2 = true) ∧
    (∀ rid (rq : ReservationUpdate) db2 r,
      update_reservation db rid rq = .ok (db2, r) → datesOk db2 = true) ∧
    (∀ eid (rq : EventUpdate) ev, db.findEvent eid = some ev →
      rq.end_date.getD ev.end_date < rq.start_date.getD ev.start_date →
      update_event db eid rq = .error .dbCheckViolation) ∧
    (∀ rid (rq : ReservationUpdate) r, db.findReservation rid = some r →
      rq.end_date.getD r.end_date < rq.start_date.getD r.start_date →
      exceptOk (update_reservation db rid rq) = false) := by
  rcases (datesOk_split db).mp hdb with ⟨hE, hR⟩
  refine ⟨?_, ?_, ?_, ?_, ?_, ?_⟩
  · intro rq nid db2 ev hpy hok
    unfold create_event at hok
    split at hok
    · exact Except.noConfusion hok
    · dsimp only at hok
      split at hok
      · exact Except.noConfusion hok
      · simp only [Except.ok.injEq, Prod.mk.injEq] at hok
        obtain ⟨hdb2, _⟩ := hok
        subst hdb2
        apply (datesOk_split _).mpr
        constructor
        · intro x hx
          rcases List.mem_append.mp hx with hx | hx
          · exact hE x hx
          · have hx2 := List.mem_singleton.mp hx
            subst hx2
            unfold EventCreate.pydanticOk at hpy
            exact of_decide_eq_true hpy
        · intro r hr
          exact hR r hr
  · intro eid rq db2 ev hok
    unfold update_event at hok
    cases hfind : db.findEvent eid with
    | none =>
      rw [hfind] at hok
      exact Except.noConfusion hok
    | some e =>
      rw [hfind] at hok
      dsimp only at hok
      split at hok
      · exact Except.noConfusion hok
      · rename_i hdate
        simp only [Except.ok.injEq, Prod.mk.injEq] at hok
        obtain ⟨hdb2, _⟩ := hok
        subst hdb2
        apply (datesOk_split _).mpr
        constructor
        · intro x hx
          unfold replaceEvent at hx
          rcases List.mem_map.mp hx with ⟨y, hy, hxy⟩
          by_cases hid : y.id = eid
          · rw [← hxy, if_pos (by simp [hid])]
            exact Int.not_lt.mp hdate
          · rw [← hxy, if_neg (by simp [hid])]
            exact hE y hy
        · intro r hr
          exact hR r hr
  · intro rq nid db2 r hpy hok
    unfold create_reservation at hok
    cases hev : db.findEvent rq.event_id with
    | none =>
      rw [hev] at hok
      exact Except.noConfusion hok
    | some ev =>
      rw [hev] at hok
      dsimp only at hok
      split at hok
      · cases hec : reservationEquipmentCheck db rq with
        | error e =>
          rw [hec] at hok
          exact Except.noConfusion hok
        | ok u =>
          rw [hec] at hok
          dsimp only at hok
          cases hbc : reservationBagCheck db rq with
          | error e =>
            rw [hbc] at hok
            exact Except.noConfusion hok
          | ok v =>
            rw [hbc] at hok
            dsimp only at hok
            split at hok
            · exact Except.noConfusion hok
            · simp only [Except.ok.injEq, Prod.mk.injEq] at hok
              obtain ⟨hdb2, _⟩ := hok
              subst hdb2
              apply (datesOk_split _).mpr
              constructor
              · intro x hx
                rw [applyResourceReserve_events] at hx
                exact hE x hx
              · intro x hx
                rw [applyResourceReserve_reservations] at hx
                rcases List.mem_append.mp hx with hx | hx
                · exact hR x hx
                · have hx2 := List.mem_singleton.mp hx
                  subst hx2
                  unfold ReservationCreate.pydanticOk at hpy
                  simp only [Bool.and_eq_true] at hpy
                  exact of_decide_eq_true hpy.2
      · exact Except.noConfusion hok
  · intro rid rq db2 r hok
    unfold update_reservation at hok
    cases hfind : db.findReservation rid with
    | none =>
      rw [hfind] at hok
      exact Except.noConfusion hok
    | some r0 =>
      rw [hfind] at hok
      dsimp only at hok
      split at hok
      · exact Except.noConfusion hok
      · split at hok
        · exact Except.noConfusion hok
        · rename_i hdate
          simp only [Except.ok.injEq, Prod.mk.injEq] at hok
          obtain ⟨hdb2, _⟩ := hok
          subst hdb2
          have hstart : rq.start_date.getD r0.start_date <=
              rq.end_date.getD r0.end_date := Int.not_lt.mp hdate
          apply (datesOk_split _).mpr
          constructor
          · intro x hx
            split at hx
            · rw [releaseResources_events] at hx
              exact hE x hx
            · exact hE x hx
          · intro x hx
            split at hx
            · rw [releaseResources_reservations] at hx
              unfold replaceReservation at hx
              rcases List.mem_map.mp hx with ⟨y, hy, hxy⟩
              by_cases hid : y.id = rid
              · rw [← hxy, if_pos (by simp [hid])]
                exact hstart
              · rw [← hxy, if_neg (by simp [hid])]
                exact hR y hy
            · unfold replaceReservation at hx
              rcases List.mem_map.mp hx with ⟨y, hy, hxy⟩
              by_cases hid : y.id = rid
              · rw [← hxy, if_pos (by simp [hid])]
                exact hstart
              · rw [← hxy, if_neg (by simp [hid])]
                exact hR y hy
  · intro eid rq ev hfind hlt
    unfold update_event
    rw [hfind]
    dsimp only
    rw [if_pos hlt]
  · intro rid rq r hfind hlt
    unfold update_reservation
    rw [hfind]
    dsimp only
    split
    · rfl
    · rfl

/-- Event created in the C8 witness. -/
def evC8 : Event :=
  { id := 1, code := 1, status := .planned, start_date := 0, end_date := 5 }

/-- Store holding only evC8. -/
def dbOneEvent : DB :=
  { equipments := [], bags := [], events := [evC8],
    reservations := [], transactions := [] }

/-- Creation request for evC8. -/
def rqEventCreate : EventCreate :=
  { code := 1, status := .planned, start_date := 0, end_date := 5 }

/-- Patch that would move the stored end_date of event 100 before its stored
start_date. -/
def rqEventPatchBad : EventUpdate :=
  { code := none, status := none, start_date := none, end_date := some (-5) }

/-- Event 100 as stored in dbBagRes. -/
def evBagRes100 : Event :=
  { id := 100, code := 0, status := .confirmed, start_date := 0, end_date := 10 }

/-- Witness for C8: an accepted creation preserves the invariant on a
concrete store, and a date-violating patch is rejected by the commit check. -/
theorem C8_witness :
    datesOk dbOneEvent = true ∧
    update_event dbBagRes 100 rqEventPatchBad = .error .dbCheckViolation :=
  ⟨(C8_date_invariant dbEmpty rfl).1 rqEventCreate 1 dbOneEvent evC8 rfl rfl,
   (C8_date_invariant dbBagRes rfl).2.2.2.2.1 100 rqEventPatchBad evBagRes100
     rfl (by decide)⟩

/-- Fixture: planned event 1 and no bag table rows at all. -/
def dbNoBag : DB :=
  { equipments := [], bags := [],
    events := [{ id := 1, code := 5, status := .planned,
                 start_date := 0, end_date := 10 }],
    reservations := [], transactions := [] }

/-- Request: withdraw nonexistent bag 10 for event 1. -/
def rqBagMissing : TransactionCreate :=
  { equipment_id := none, bag_id := some 10, event_id := 1,
    transaction_type := .withdrawal, scheduled_date := 0, status := .pending }

/-- C9 counterexample: in dbNoBag the event checks pass (event 1 is planned)
and bag 10 does not exist; the claimed behavior is that the transaction is
still created, but the insert violates the bags foreign key at flush and the
request fails with nothing persisted. -/
theorem C9_counterexample :
    dbNoBag.findBag 10 = none ∧
    getEventStatus dbNoBag 1 = some .planned ∧
    exceptOk (create_transaction dbNoBag rqBagMissing 0 40) = false :=
  ⟨rfl, rfl, rfl⟩

/-- C9 (amended): for a transaction on a bag resource with the event checks
satisfied, the route itself raises no bag not-found error: among the route
checks only withdrawals on an existing in_use bag are rejected, and
return-type bag transactions carry no bag-status precondition at all. But
when the referenced bag does not exist the insert violates the bags foreign
key (enforced through PRAGMA foreign_keys=ON) and fails at flush, so no
transaction is created and the store is unchanged; the request fails exactly
when the bag is missing or the withdrawal hits an existing in_use bag. -/
theorem C9_bag_transactions (db : DB) (rq : TransactionCreate) (now : Int)
    (nid : Nat) (bid : Nat)
    (heq : rq.equipment_id = none) (hb : rq.bag_id = some bid)
    (ev : Event) (hev : db.findEvent rq.event_id = some ev)
    (hevs : ev.status = .planned ∨ ev.status = .confirmed
      ∨ ev.status = .inProgress) :
    (exceptOk (create_transaction db rq now nid) = false ↔
      ((rq.transaction_type = .withdrawal ∧
        ∃ bag, db.findBag bid = some bag ∧ bag.status = .inUse) ∨
       db.findBag bid = none)) ∧
    (db.findBag bid = none →
      create_transaction db rq now nid = .error .dbFkViolation ∧
      runOp db (create_transaction db rq now nid) = db) ∧
    (∀ bag, db.findBag bid = some bag → rq.transaction_type = .ret →
      (create_transaction db rq now nid).toOption.map (fun p => p.2.status)
        = some .completed) ∧
    create_transaction db rq now nid ≠ .error .bagNotFound := by
  have hc : (ev.status == EventStatus.planned
      || ev.status == EventStatus.confirmed
      || ev.status == EventStatus.inProgress) = true := by
    rcases hevs with h | h | h <;> simp [h]
  have hec : transactionEquipmentCheck db rq = .ok () := by
    unfold transactionEquipmentCheck
    rw [heq]
  have herr : ∀ e, transactionBagCheck db rq = .error e →
      create_transaction db rq now nid = .error e := by
    intro e hbc
    unfold create_transaction
    rw [hev]
    dsimp only
    rw [if_pos hc, hec]
    dsimp only
    rw [hbc]
  have hfk : ∀ t2 : Transaction, t2.equipment_id = none →
      t2.bag_id = some bid → t2.event_id = rq.event_id →
      transactionFkOk db t2 = (db.findBag bid).isSome := by
    intro t2 h1 h2 h3
    unfold transactionFkOk
    rw [h1, h2, h3, hev]
    simp
  have hbc_ok_of_none : db.findBag bid = none →
      transactionBagCheck db rq = .ok () := by
    intro hfb
    unfold transactionBagCheck
    rw [hb]
    dsimp only
    split
    · rw [hfb]
    · rfl
  have hbc_ok_ret : rq.transaction_type = .ret →
      transactionBagCheck db rq = .ok () := by
    intro hty
    unfold transactionBagCheck
    rw [hb]
    dsimp only
    rw [hty]
    rfl
  have hbc_ok_free : ∀ bag, db.findBag bid = some bag →
      bag.status ≠ .inUse → transactionBagCheck db rq = .ok () := by
    intro bag hfb hst
    unfold transactionBagCheck
    rw [hb]
    dsimp only
    split
    · rw [hfb]
      dsimp only
      simp [hst]
    · rfl
  have hbc_err_inuse : ∀ bag, db.findBag bid = some bag →
      rq.transaction_type = .withdrawal → bag.status = .inUse →
      transactionBagCheck db rq = .error .bagInUseElsewhere := by
    intro bag hfb hty hst
    unfold transactionBagCheck
    rw [hb]
    dsimp only
    rw [hty]
    rw [hfb]
    dsimp only
    simp [hst]
  have hfk_err : ∀ u : Unit, transactionBagCheck db rq = .ok u →
      db.findBag bid = none →
      create_transaction db rq now nid = .error .dbFkViolation := by
    intro u hbc hfb
    unfold create_transaction
    rw [hev]
    dsimp only
    rw [if_pos hc, hec]
    dsimp only
    rw [hbc]
    dsimp only
    rw [hfk _ heq hb rfl, hfb]
    rfl
  have hokmap : ∀ u : Unit, transactionBagCheck db rq = .ok u →
      ∀ bag, db.findBag bid = some bag →
      (create_transaction db rq now nid).toOption.map (fun p => p.2.status)
        = some .completed := by
    intro u hbc bag hfb
    unfold create_transaction
    rw [hev]
    dsimp only
    rw [if_pos hc, hec]
    dsimp only
    rw [hbc]
    dsimp only
    rw [hfk _ heq hb rfl, hfb]
    rw [if_pos (show (some bag).isSome = true from rfl)]
    cases rq.transaction_type <;> rfl
  have hoktrue : ∀ u : Unit, transactionBagCheck db rq = .ok u →
      ∀ bag, db.findBag bid = some bag →
      exceptOk (create_transaction db rq now nid) = true := by
    intro u hbc bag hfb
    unfold create_transaction
    rw [hev]
    dsimp only
    rw [if_pos hc, hec]
    dsimp only
    rw [hbc]
    dsimp only
    rw [hfk _ heq hb rfl, hfb]
    rw [if_pos (show (some bag).isSome = true from rfl)]
    rfl
  refine ⟨?_, ?_, ?_, ?_⟩
  · cases hfb : db.findBag bid with
    | none =>
      have h2 := hfk_err () (hbc_ok_of_none hfb) hfb
      constructor
      · intro _
        exact Or.inr rfl
      · intro _
        rw [h2]
        rfl
    | some bag =>
      cases hty : rq.transaction_type with
      | ret =>
        rw [hoktrue () (hbc_ok_ret hty) bag hfb]
        constructor
        · intro h
          exact absurd h (by decide)
        · rintro (⟨h1, -⟩ | h1)
          · exact TransactionType.noConfusion h1
          · exact Option.noConfusion h1
      | withdrawal =>
        by_cases hst : bag.status = .inUse
        · rw [herr _ (hbc_err_inuse bag hfb hty hst)]
          exact ⟨fun _ => Or.inl ⟨rfl, bag, rfl, hst⟩, fun _ => rfl⟩
        · rw [hoktrue () (hbc_ok_free bag hfb hst) bag hfb]
          constructor
          · intro h
            exact absurd h (by decide)
          · rintro (⟨-, bag2, hbag2, hst2⟩ | h1)
            · injection hbag2 with h3
              subst h3
              exact absurd hst2 hst
            · exact Option.noConfusion h1
  · intro hfb
    have h2 := hfk_err () (hbc_ok_of_none hfb) hfb
    refine ⟨h2, ?_⟩
    exact (congrArg (runOp db) h2).trans rfl
  · intro bag hfb hty
    exact hokmap () (hbc_ok_ret hty) bag hfb
  · cases hfb : db.findBag bid with
    | none =>
      intro h
      rw [hfk_err () (hbc_ok_of_none hfb) hfb] at h
      injection h with h2
      exact ApiError.noConfusion h2
    | some bag =>
      cases hty : rq.transaction_type with
      | ret =>
        intro h
        have h2 := hoktrue () (hbc_ok_ret hty) bag hfb
        rw [h] at h2
        exact absurd h2 (by decide)
      | withdrawal =>
        by_cases hst : bag.status = .inUse
        · intro h
          rw [herr _ (hbc_err_inuse bag hfb hty hst)] at h
          injection h with h2
          exact ApiError.noConfusion h2
        · intro h
          have h2 := hoktrue () (hbc_ok_free bag hfb hst) bag hfb
          rw [h] at h2
          exact absurd h2 (by decide)

/-- Witness for C9 at concrete stores: the withdrawal on missing bag 10 fails
at flush with the foreign-key violation leaving the store unchanged, while a
return on the existing in_use bag 10 succeeds with no bag precondition, the
transaction stored completed. -/
theorem C9_witness :
    create_transaction dbNoBag rqBagMissing 0 40 = .error .dbFkViolation ∧
    runOp dbNoBag (create_transaction dbNoBag rqBagMissing 0 40) = dbNoBag ∧
    (create_transaction dbTwoWithdrawals rqFirstReturn 200000 30).toOption.map
        (fun p => p.2.status) = some TransactionStatus.completed :=
  ⟨((C9_bag_transactions dbNoBag rqBagMissing 0 40 10 rfl rfl
      { id := 1, code := 5, status := .planned, start_date := 0, end_date := 10 }
      rfl (Or.inl rfl)).2.1 rfl).1,
   ((C9_bag_transactions dbNoBag rqBagMissing 0 40 10 rfl rfl
      { id := 1, code := 5, status := .planned, start_date := 0, end_date := 10 }
      rfl (Or.inl rfl)).2.1 rfl).2,
   (C9_bag_transactions dbTwoWithdrawals rqFirstReturn 200000 30 10 rfl rfl
      { id := 1, code := 1, status := .inProgress, start_date := -10, end_date := 0 }
      rfl (Or.inr (Or.inr rfl))).2.2.1
     { id := 10, status := .inUse, is_active := true } rfl rfl⟩

/-- C10: update_transaction applies any status patch to an existing
transaction with no precondition on the current status, and it never touches
the equipment, bag or event tables; cancel_transaction, in contrast, rejects
a completed transaction. Instantiating the patch with status cancelled on a
completed transaction shows the update path cancels what the cancel path
refuses. -/
theorem C10_update_unchecked (db : DB) (tid : Nat) (rq : TransactionUpdate)
    (now : Int) (t : Transaction)
    (hfind : db.findTransaction tid = some t) :
    exceptOk (update_transaction db tid rq now) = true ∧
    (update_transaction db tid rq now).toOption.map (fun p => p.2.status)
      = some (rq.status.getD t.status) ∧
    (runOp db (update_transaction db tid rq now)).equipments = db.equipments ∧
    (runOp db (update_transaction db tid rq now)).bags = db.bags ∧
    (runOp db (update_transaction db tid rq now)).events = db.events ∧
    (t.status = .completed →
      cancel_transaction db tid = .error .transactionCompleted) := by
  refine ⟨?_, ?_, ?_, ?_, ?_, ?_⟩
  · unfold update_transaction
    rw [hfind]
    rfl
  · unfold update_transaction
    rw [hfind]
    dsimp only
    split <;> rfl
  · unfold update_transaction
    rw [hfind]
    rfl
  · unfold update_transaction
    rw [hfind]
    rfl
  · unfold update_transaction
    rw [hfind]
    rfl
  · intro hc
    unfold cancel_transaction
    rw [hfind]
    simp [hc]

/-- Patch setting the status to cancelled. -/
def rqCancelPatch : TransactionUpdate :=
  { status := some .cancelled, scheduled_date := none, actual_date := none }

/-- Witness for C10 at the concrete store dbTermTx: the completed transaction
8 is cancelled through update_transaction while cancel_transaction refuses
it. -/
theorem C10_witness :
    exceptOk (update_transaction dbTermTx 8 rqCancelPatch 0) = true ∧
    (update_transaction dbTermTx 8 rqCancelPatch 0).toOption.map
        (fun p => p.2.status) = some TransactionStatus.cancelled ∧
    cancel_transaction dbTermTx 8 = .error .transactionCompleted :=
  ⟨(C10_update_unchecked dbTermTx 8 rqCancelPatch 0 txCompleted8 rfl).1,
   (C10_update_unchecked dbTermTx 8 rqCancelPatch 0 txCompleted8 rfl).2.1,
   (C10_update_unchecked dbTermTx 8 rqCancelPatch 0 txCompleted8 rfl).2.2.2.2.2
     rfl⟩
